import Mathlib

/-!
Verification of the Rock-Paper-Scissors game core
(`src/chimera/examples/rock_paper_scissors.py` together with the shared
game-lifecycle code of `chimera/authoring.py`).

Shallow embedding notes:
* Python `Move` objects are embedded as a name plus the list of names of the
  moves they beat.  Inside one variant's move table every move object is
  uniquely determined by its name, so the Python identity-based set membership
  test of `Move.beats` coincides with the name-based test used here.
* Exceptions are embedded as an `Except` error value.  The Python `details`
  strings are dropped: only the error class matters to the behaviour under
  study (the `details` text of `NotPlayerTurn` renders a `Move` via `__str__`,
  which iterates a Python `set` in unspecified order and therefore has no
  deterministic embedding).
* `Player` objects are represented by their integer identifiers (ids are
  assigned densely from 0 in join order); player display names are carried in
  the state for the snapshot serializer.
* Python `list` indexing that would raise `IndexError` out of range is
  embedded with `List.getD`; every theorem below is stated on states whose
  lists have the length the started two-player game guarantees, so the
  default value is never exercised.
-/

/-- Error kinds of `src/chimera/exceptions.py` that the game core raises
(`details` strings dropped, see module comment). -/
inductive ChimeraError where
  | NotPlayerTurn
  | IncorrectActionData
  | IncorrectMove
deriving DecidableEq, Repr

/-- Embedding of class `Move`: a name and the names of the moves in its
`moves_i_beat` set (the final contents after the `add_beats` calls of
`get_move_dict_for_game`). -/
structure Move where
  name : String
  moves_i_beat : List String
deriving DecidableEq, Repr

/-- Embedding of `Move.beats`: true iff the opponent is in this move's
`moves_i_beat` set. -/
def Move.beats (self opponent : Move) : Bool :=
  self.moves_i_beat.contains opponent.name

/-- The three moves of the "rps" variant with the beats-edges added by
`get_move_dict_for_game` (rock beats scissors, paper beats rock,
scissors beats paper). -/
def rpsDict : List (String × Move) :=
  [("rock", ⟨"rock", ["scissors"]⟩),
   ("paper", ⟨"paper", ["rock"]⟩),
   ("scissors", ⟨"scissors", ["paper"]⟩)]

/-- The five moves of the "rpsls" variant with the beats-edges added by
`get_move_dict_for_game`. -/
def rpslsDict : List (String × Move) :=
  [("rock", ⟨"rock", ["scissors", "lizard"]⟩),
   ("paper", ⟨"paper", ["rock", "spock"]⟩),
   ("scissors", ⟨"scissors", ["paper", "lizard"]⟩),
   ("lizard", ⟨"lizard", ["spock", "paper"]⟩),
   ("spock", ⟨"spock", ["rock", "scissors"]⟩)]

/-- Embedding of `get_move_dict_for_game`: the name-keyed move table for a
variant identifier, or `IncorrectActionData` for an unsupported identifier
(the Python `match` statement tries the literal cases in order). -/
def get_move_dict_for_game (subgame_id : String) :
    Except ChimeraError (List (String × Move)) :=
  if subgame_id = "rps" then .ok rpsDict
  else if subgame_id = "rpsls" then .ok rpslsDict
  else .error .IncorrectActionData

/-- One entry of `self.history`: `[p1_move, p2_move, winner_id_or_None]`. -/
structure RoundRecord where
  move0 : String
  move1 : String
  winner_id : Option Nat
deriving DecidableEq, Repr

/-- A serialized snapshot value: a JSON string or JSON null.  Needed to
distinguish the Python string `str(None) = "None"` from an actual `None`. -/
inductive SVal where
  | str (v : String)
  | null
deriving DecidableEq, Repr

/-- State of a `RockPaperScissors` instance before `on_start` has run, as
left by `RockPaperScissors.__init__` (round/score/history storage still
`None`). -/
structure InitState where
  game_options : List (String × String)
  points : Option (List Nat)
  history : Option (List RoundRecord)
  current_round_moves : Option (List (Option Move))
  current_round_winner_id : Option Nat
  points_to_win : Nat
  subgame_id : String
  valid_moves : List (String × Move)
deriving DecidableEq, Repr

/-- Embedding of `RockPaperScissors.__init__`: the options dictionary is
stored (via `Game.__init__`) but the variant id is hard-coded to `"rps"` and
the win threshold to `3`; `valid_moves` is `get_move_dict_for_game("rps")`,
which always succeeds. -/
def RockPaperScissors_init (game_options : List (String × String)) : InitState :=
  { game_options := game_options
    points := none
    history := none
    current_round_moves := none
    current_round_winner_id := none
    points_to_win := 3
    subgame_id := "rps"
    valid_moves := (get_move_dict_for_game "rps").toOption.getD [] }

/-- State of a started `RockPaperScissors` game (after `on_start`).
`player_names` holds the registry's display names indexed by player id;
`state_updated` is the `Game._state_updated` notification flag. -/
structure GameState where
  player_names : List String
  game_options : List (String × String)
  points : List Nat
  history : List RoundRecord
  current_round_moves : List (Option Move)
  current_round_winner_id : Option Nat
  points_to_win : Nat
  subgame_id : String
  valid_moves : List (String × Move)
  state_updated : Bool
deriving DecidableEq, Repr

/-- Embedding of `RockPaperScissors.on_start` run on a freshly constructed
instance: `points = [0] * max_players` (`max_players = 2` for a
`TwoPlayerGame`), empty history, both current-round slots unset. -/
def on_start (player_names : List String) (s : InitState) : GameState :=
  { player_names := player_names
    game_options := s.game_options
    points := [0, 0]
    history := []
    current_round_moves := [none, none]
    current_round_winner_id := s.current_round_winner_id
    points_to_win := s.points_to_win
    subgame_id := s.subgame_id
    valid_moves := s.valid_moves
    state_updated := false }

/-- A started game: construction followed by `on_start`. -/
def started (player_names : List String)
    (game_options : List (String × String)) : GameState :=
  on_start player_names (RockPaperScissors_init game_options)

/-- Embedding of the property `RockPaperScissors.done`:
`self.points_to_win in self.points`. -/
def GameState.done (s : GameState) : Bool :=
  s.points.contains s.points_to_win

/-- Embedding of the property `RockPaperScissors.winner`, returning the
winning player's id (`get_player_by_id` is represented by the id itself). -/
def GameState.winner (s : GameState) : Option Nat :=
  if s.done then
    if s.points.getD 0 0 > s.points.getD 1 0 then some 0
    else if s.points.getD 0 0 < s.points.getD 1 0 then some 1
    else none
  else none

/-- Embedding of the property `RockPaperScissors.current_round_over`: every
slot of `current_round_moves` holds a `Move`. -/
def GameState.current_round_over (s : GameState) : Bool :=
  s.current_round_moves.all (fun m => m.isSome)

/-- Embedding of `Game.notify_update`: raise the state-changed flag. -/
def GameState.notify_update (s : GameState) : GameState :=
  { s with state_updated := true }

/-- Modelled from the spec: `RockPaperScissors.process_current_round` is
called by `play_move` (rock_paper_scissors.py line 437) but is not defined
anywhere in the source tree; only its caller and the history shape it must
produce (`self.history.append([p1_move, p2_move, winner_id_or_None])`) are
present.  Modelled from spec section 4.3: if player 0's move beats player 1's,
player 0 wins the round; if player 1's beats player 0's, player 1 wins;
otherwise the round is a tie with no winner.  On a decisive round the winner's
score is incremented by 1; a record of the two moves and the
winner-id-or-none is appended to history (ties included); and both
current-round slots are reset to unset.  History entries carry move names, as
required by the snapshot serializer (spec section 6). -/
def GameState.process_current_round (s : GameState) : GameState :=
  match s.current_round_moves.getD 0 none, s.current_round_moves.getD 1 none with
  | some m0, some m1 =>
    let round_winner_id : Option Nat :=
      if m0.beats m1 then some 0
      else if m1.beats m0 then some 1
      else none
    let new_points : List Nat :=
      match round_winner_id with
      | some w => s.points.set w (s.points.getD w 0 + 1)
      | none => s.points
    { s with
      points := new_points
      history := s.history ++ [⟨m0.name, m1.name, round_winner_id⟩]
      current_round_moves := [none, none] }
  | _, _ => s

/-- Embedding of `RockPaperScissors.play_move`: reject with `NotPlayerTurn`
if this player already has a recorded move this round; otherwise record the
move, and if the round is now over, process it and notify.  Returns the
accepted move's name together with the updated state.  (An error leaves the
state unchanged: the Python `raise` happens before any mutation.) -/
def GameState.play_move (s : GameState) (player_id : Nat) (player_move : Move) :
    Except ChimeraError (String × GameState) :=
  match s.current_round_moves.getD player_id none with
  | some _ => .error .NotPlayerTurn
  | none =>
    let s1 : GameState :=
      { s with current_round_moves :=
          s.current_round_moves.set player_id (some player_move) }
    if s1.current_round_over then
      .ok (player_move.name, s1.process_current_round.notify_update)
    else
      .ok (player_move.name, s1)

/-- Shape of the `current_round` entry of the game-state snapshot. -/
structure CurrentRound where
  moves : List (String × SVal)
  winner : SVal
deriving DecidableEq, Repr

/-- Embedding of `RockPaperScissors.get_current_round_for_game_state`: zips
player names with the current-round slots; a filled slot contributes the
move's name, an empty slot contributes the Python string `str(None)`, i.e.
the string `"None"` (not a JSON null).  The `winner` entry is the name of
`current_round_winner_id`'s player when that field is set, else null. -/
def get_current_round_for_game_state (s : GameState)
    (player_names : List String) : CurrentRound :=
  { moves :=
      (player_names.zip s.current_round_moves).map
        (fun p =>
          match p.2 with
          | some mv => (p.1, SVal.str mv.name)
          | none => (p.1, SVal.str "None"))
    winner :=
      match s.current_round_winner_id with
      | some wid => SVal.str (player_names.getD wid "")
      | none => SVal.null }

/-- The states reachable in a match: a started game, followed by any number
of successful `play_move` calls.  (`done`, `winner` and the snapshot are pure
queries and do not change the state; a failed `play_move` raises before
mutating.) -/
inductive Reachable : GameState → Prop
  | start (player_names : List String) (game_options : List (String × String)) :
      Reachable (started player_names game_options)
  | step (s s' : GameState) (player_id : Nat) (mv : Move) (ack : String) :
      Reachable s → s.play_move player_id mv = .ok (ack, s') → Reachable s'

/-- The "rps" rock move as built by `get_move_dict_for_game`. -/
def rockM : Move := ⟨"rock", ["scissors"]⟩

/-- The "rps" scissors move as built by `get_move_dict_for_game`. -/
def scissorsM : Move := ⟨"scissors", ["paper"]⟩

/-- History record of a round in which player 0 played rock and player 1
played scissors (player 0 wins). -/
def rsRecord : RoundRecord := ⟨"rock", "scissors", some 0⟩

/-- A freshly started two-player "rps" game. -/
def g0 : GameState := started ["alice", "bob"] []

/-- `g0` after player 0 submitted rock (round still open). -/
def g1 : GameState := { g0 with current_round_moves := [some rockM, none] }

/-- State after one resolved rock-vs-scissors round. -/
def g2 : GameState :=
  { g0 with points := [1, 0], history := [rsRecord], state_updated := true }

/-- `g2` after player 0 submitted rock again. -/
def g3 : GameState := { g2 with current_round_moves := [some rockM, none] }

/-- State after two resolved rock-vs-scissors rounds. -/
def g4 : GameState :=
  { g0 with points := [2, 0], history := [rsRecord, rsRecord], state_updated := true }

/-- `g4` after player 0 submitted rock again. -/
def g5 : GameState := { g4 with current_round_moves := [some rockM, none] }

/-- State after three resolved rock-vs-scissors rounds: player 0 has reached
the win threshold, so `done` is true. -/
def doneState : GameState :=
  { g0 with
    points := [3, 0]
    history := [rsRecord, rsRecord, rsRecord]
    state_updated := true }

lemma doneState_reachable : Reachable doneState := by
  have h0 : Reachable g0 := Reachable.start ["alice", "bob"] []
  have h1 : Reachable g1 := Reachable.step g0 g1 0 rockM "rock" h0 rfl
  have h2 : Reachable g2 := Reachable.step g1 g2 1 scissorsM "scissors" h1 rfl
  have h3 : Reachable g3 := Reachable.step g2 g3 0 rockM "rock" h2 rfl
  have h4 : Reachable g4 := Reachable.step g3 g4 1 scissorsM "scissors" h3 rfl
  have h5 : Reachable g5 := Reachable.step g4 g5 0 rockM "rock" h4 rfl
  exact Reachable.step g5 doneState 1 scissorsM "scissors" h5 rfl

lemma process_current_round_winner_id (s : GameState) :
    s.process_current_round.current_round_winner_id = s.current_round_winner_id := by
  unfold GameState.process_current_round
  cases h0 : s.current_round_moves.getD 0 none <;>
    cases h1 : s.current_round_moves.getD 1 none <;> simp

lemma play_move_ok_winner_id (s s' : GameState) (pid : Nat) (mv : Move)
    (ack : String) (h : s.play_move pid mv = .ok (ack, s')) :
    s'.current_round_winner_id = s.current_round_winner_id := by
  unfold GameState.play_move at h
  cases hg : s.current_round_moves.getD pid none with
  | some m => rw [hg] at h; simp at h
  | none =>
    rw [hg] at h
    split at h
    · simp at h
    · dsimp only [] at h
      split at h <;>
        (simp only [Except.ok.injEq, Prod.mk.injEq] at h
         obtain ⟨h1, h2⟩ := h
         subst h2
         simp [GameState.notify_update, process_current_round_winner_id])

/-- C3: for both supported variant identifiers the move relation built by
`get_move_dict_for_game` is irreflexive (no move beats itself); each of the 3
moves of "rps" beats exactly 1 other move and each of the 5 moves of "rpsls"
beats exactly 2; any other identifier fails with `IncorrectActionData`. -/
theorem claim_C3_move_relation :
    (get_move_dict_for_game "rps" = .ok rpsDict ∧ rpsDict.length = 3 ∧
      (∀ p ∈ rpsDict, p.2.beats p.2 = false ∧
        ((rpsDict.map Prod.snd).filter (fun o => p.2.beats o)).length = 1)) ∧
    (get_move_dict_for_game "rpsls" = .ok rpslsDict ∧ rpslsDict.length = 5 ∧
      (∀ p ∈ rpslsDict, p.2.beats p.2 = false ∧
        ((rpslsDict.map Prod.snd).filter (fun o => p.2.beats o)).length = 2)) ∧
    (∀ sub_id, sub_id ≠ "rps" → sub_id ≠ "rpsls" →
      get_move_dict_for_game sub_id = .error .IncorrectActionData) := by
  refine ⟨⟨rfl, rfl, by decide⟩, ⟨rfl, rfl, by decide⟩, ?_⟩
  intro sub_id h1 h2
  simp [get_move_dict_for_game, h1, h2]

/-- C3 witness: the unsupported identifier "fire" is rejected. -/
theorem claim_C3_witness :
    ("fire" ≠ "rps" ∧ "fire" ≠ "rpsls") ∧
    get_move_dict_for_game "fire" = .error .IncorrectActionData :=
  ⟨⟨by decide, by decide⟩,
   claim_C3_move_relation.2.2 "fire" (by decide) (by decide)⟩

/-- C5: `winner` returns no winner while the game is not done; once done it
returns the player with the strictly higher score, and no winner when the two
scores are equal. -/
theorem claim_C5_winner_accessor (s : GameState) (p0 p1 : Nat)
    (hp : s.points = [p0, p1]) :
    (s.done = false → s.winner = none) ∧
    (s.done = true → s.winner =
      (if p0 > p1 then some 0 else if p0 < p1 then some 1 else none)) := by
  constructor
  · intro hd
    simp [GameState.winner, hd]
  · intro hd
    simp [GameState.winner, hd, hp]

/-- C5 witness: after three wins by player 0 the game is done and player 0
(the strictly higher score) is the winner. -/
theorem claim_C5_witness :
    doneState.points = [3, 0] ∧
    ((doneState.done = false → doneState.winner = none) ∧
     (doneState.done = true → doneState.winner =
       (if 3 > 0 then some 0 else if 3 < 0 then some 1 else none))) :=
  ⟨rfl, claim_C5_winner_accessor doneState 3 0 rfl⟩

/-- C6: a player who already has a recorded move in the open round gets
`NotPlayerTurn` on any further `play_move`, whatever the other player's slot
holds; the error is raised before any mutation, so the recorded move is
unchanged (in this pure embedding an error returns no new state). -/
theorem claim_C6_resubmission_rejected (s : GameState) (pid : Nat)
    (mv recorded : Move)
    (h : s.current_round_moves.getD pid none = some recorded) :
    s.play_move pid mv = .error .NotPlayerTurn := by
  unfold GameState.play_move
  rw [h]

/-- C6 witness: after player 0 played rock, a second submission by player 0
is rejected. -/
theorem claim_C6_witness :
    g1.current_round_moves.getD 0 none = some rockM ∧
    g1.play_move 0 scissorsM = .error .NotPlayerTurn :=
  ⟨rfl, claim_C6_resubmission_rejected g1 0 scissorsM rockM rfl⟩

/-- C9: the constructor ignores the `game_options` dictionary except for
storing it: every constructed game has `subgame_id = "rps"`,
`points_to_win = 3` and the "rps" move table, and constructions from two
different option dictionaries differ only in the stored copy. -/
theorem claim_C9_options_ignored (opts opts2 : List (String × String)) :
    (RockPaperScissors_init opts).subgame_id = "rps" ∧
    (RockPaperScissors_init opts).points_to_win = 3 ∧
    (RockPaperScissors_init opts).valid_moves = rpsDict ∧
    (RockPaperScissors_init opts).game_options = opts ∧
    RockPaperScissors_init opts =
      { RockPaperScissors_init opts2 with game_options := opts } :=
  ⟨rfl, rfl, rfl, rfl, rfl⟩

/-- C1: submitting the second move of an open round resolves the round in the
same `play_move` call: the winner is determined by the beats relation, a
decisive winner's score grows by exactly 1 (tie: no score change), one record
of the two moves and the winner-or-none is appended to history (ties
included), both slots are reset to unset, and the state-changed flag is
raised.  Both submission orders (player 0 already moved / player 1 already
moved) are covered. -/
theorem claim_C1_round_resolution (s : GameState) (m0 m1 : Move) (p0 p1 : Nat)
    (hp : s.points = [p0, p1]) :
    (s.current_round_moves = [some m0, none] →
      s.play_move 1 m1 = .ok (m1.name,
        { s with
          points := if m0.beats m1 then [p0 + 1, p1]
                    else if m1.beats m0 then [p0, p1 + 1] else [p0, p1]
          history := s.history ++ [⟨m0.name, m1.name,
                    if m0.beats m1 then some 0
                    else if m1.beats m0 then some 1 else none⟩]
          current_round_moves := [none, none]
          state_updated := true })) ∧
    (s.current_round_moves = [none, some m1] →
      s.play_move 0 m0 = .ok (m0.name,
        { s with
          points := if m0.beats m1 then [p0 + 1, p1]
                    else if m1.beats m0 then [p0, p1 + 1] else [p0, p1]
          history := s.history ++ [⟨m0.name, m1.name,
                    if m0.beats m1 then some 0
                    else if m1.beats m0 then some 1 else none⟩]
          current_round_moves := [none, none]
          state_updated := true })) := by
  obtain ⟨pn, go, pts, hist, crm, crw, ptw, sid, vm, su⟩ := s
  simp only at hp
  subst hp
  constructor <;> intro hm <;> simp only at hm <;> subst hm <;>
    by_cases hb0 : m0.beats m1 <;> by_cases hb1 : m1.beats m0 <;>
      simp [GameState.play_move, GameState.current_round_over,
        GameState.process_current_round, GameState.notify_update, hb0, hb1]

/-- C7: with both slots empty, submitting mA for player 0 then mB for player 1
leads to the same resolved state (same round winner, same score change, same
history entry) as submitting mB for player 1 then mA for player 0. -/
theorem claim_C7_submission_order_commutes (s : GameState) (mA mB : Move)
    (h : s.current_round_moves = [none, none]) :
    ((s.play_move 0 mA).bind (fun p => p.2.play_move 1 mB)).map (fun p => p.2) =
    ((s.play_move 1 mB).bind (fun p => p.2.play_move 0 mA)).map (fun p => p.2) := by
  obtain ⟨pn, go, pts, hist, crm, crw, ptw, sid, vm, su⟩ := s
  simp only at h
  subst h
  simp [GameState.play_move, GameState.current_round_over,
    GameState.process_current_round, GameState.notify_update,
    Except.bind, Except.map]

/-- C1 witness: with player 0's rock pending, player 1's scissors resolves
the round to the concrete one-round state `g2`. -/
theorem claim_C1_witness :
    g1.points = [0, 0] ∧ g1.current_round_moves = [some rockM, none] ∧
    g1.play_move 1 scissorsM = .ok ("scissors", g2) :=
  ⟨rfl, rfl, (claim_C1_round_resolution g1 rockM scissorsM 0 0 rfl).1 rfl⟩

/-- C7 witness: rock-then-scissors and scissors-then-rock end in the same
state from a fresh game. -/
theorem claim_C7_witness :
    g0.current_round_moves = [none, none] ∧
    ((g0.play_move 0 rockM).bind
        (fun p => p.2.play_move 1 scissorsM)).map (fun p => p.2) =
      ((g0.play_move 1 scissorsM).bind
        (fun p => p.2.play_move 0 rockM)).map (fun p => p.2) :=
  ⟨rfl, claim_C7_submission_order_commutes g0 rockM scissorsM rfl⟩

/-- C2 counterexample: in the reachable state after three decisive rounds the
game is done, yet `play_move` accepts and records a new move instead of
failing with `NotPlayerTurn` — `play_move` never consults `done`. -/
theorem claim_C2_counterexample :
    doneState.done = true ∧ Reachable doneState ∧
    doneState.play_move 0 rockM =
      .ok ("rock", { doneState with current_round_moves := [some rockM, none] }) :=
  ⟨rfl, doneState_reachable, rfl⟩

/-- C2 amended: `play_move` performs no done-check; in a done state a call
succeeds exactly when the calling player's current-round slot is still unset,
and fails (with `NotPlayerTurn`) exactly when that player already moved. -/
theorem claim_C2_no_done_check (s : GameState) (pid : Nat) (mv : Move)
    (_hdone : s.done = true) :
    (s.play_move pid mv).isOk = (s.current_round_moves.getD pid none).isNone := by
  unfold GameState.play_move
  cases hg : s.current_round_moves.getD pid none with
  | some m => rfl
  | none =>
    dsimp only []
    split <;> rfl

/-- C2 amended witness: in the concrete done state, player 0's empty slot
makes the call succeed. -/
theorem claim_C2_witness :
    doneState.done = true ∧
    (doneState.play_move 0 rockM).isOk =
      (doneState.current_round_moves.getD 0 none).isNone :=
  ⟨rfl, claim_C2_no_done_check doneState 0 rockM rfl⟩

/-- C4 counterexample: `done` is not monotone.  In the reachable done state
(player 0 at the threshold of 3) one further round won by player 0 pushes the
score to 4, and `done` — an equality test against the threshold — becomes
false again. -/
theorem claim_C4_counterexample :
    doneState.done = true ∧ Reachable doneState ∧
    ((doneState.play_move 0 rockM).bind
        (fun p => p.2.play_move 1 scissorsM)).map (fun p => p.2.done) =
      .ok false :=
  ⟨rfl, doneState_reachable, rfl⟩

/-- C4 amended: `done` is true iff some entry of the score ledger equals the
configured win threshold; it is a pure query of the state (so repeated
queries cannot change it), but it does not remain true under further play
(see the counterexample). -/
theorem claim_C4_done_iff (s : GameState) :
    s.done = true ↔ ∃ p ∈ s.points, p = s.points_to_win := by
  unfold GameState.done
  constructor
  · intro h
    exact ⟨s.points_to_win, by simpa using h, rfl⟩
  · rintro ⟨p, hp, rfl⟩
    simpa using hp

/-- C4 amended witness: the iff applied at the concrete done state. -/
theorem claim_C4_witness : doneState.done = true :=
  (claim_C4_done_iff doneState).mpr ⟨3, by decide, rfl⟩

/-- C8 counterexample: in a freshly started game (no move submitted yet) the
snapshot's current-round moves map each player to the string "None"
(Python's `str(None)`), not to null as the claim states. -/
theorem claim_C8_counterexample :
    (get_current_round_for_game_state g0 ["alice", "bob"]).moves =
      [("alice", SVal.str "None"), ("bob", SVal.str "None")] ∧
    SVal.str "None" ≠ SVal.null :=
  ⟨rfl, by decide⟩

/-- C8 amended: the snapshot's current_round maps each player name to the
submitted move's name, or to the string "None" (Python `str(None)`) when
that player has not yet moved; the winner field is the winning player's name
when `current_round_winner_id` is set and null otherwise. -/
theorem claim_C8_serializer_shape (s : GameState) (n0 n1 : String)
    (m0 m1 : Option Move) (hm : s.current_round_moves = [m0, m1]) :
    (get_current_round_for_game_state s [n0, n1]).moves =
      [(n0, match m0 with
            | some mv => SVal.str mv.name
            | none => SVal.str "None"),
       (n1, match m1 with
            | some mv => SVal.str mv.name
            | none => SVal.str "None")] ∧
    (get_current_round_for_game_state s [n0, n1]).winner =
      (match s.current_round_winner_id with
       | some wid => SVal.str ([n0, n1].getD wid "")
       | none => SVal.null) := by
  obtain ⟨pn, go, pts, hist, crm, crw, ptw, sid, vm, su⟩ := s
  simp only at hm
  subst hm
  unfold get_current_round_for_game_state
  exact ⟨by cases m0 <;> cases m1 <;> rfl, rfl⟩

/-- C8 amended witness: one slot filled, one empty, no round winner. -/
theorem claim_C8_witness :
    g1.current_round_moves = [some rockM, none] ∧
    ((get_current_round_for_game_state g1 ["alice", "bob"]).moves =
        [("alice", SVal.str "rock"), ("bob", SVal.str "None")] ∧
     (get_current_round_for_game_state g1 ["alice", "bob"]).winner = SVal.null) :=
  ⟨rfl, claim_C8_serializer_shape g1 "alice" "bob" (some rockM) none rfl⟩

/-- C10: `current_round_winner_id` starts out `None` and no operation ever
assigns it, so in every reachable state it is still `None` and the snapshot's
current-round winner field is null. -/
theorem claim_C10_round_winner_never_set (s : GameState) (hs : Reachable s)
    (names : List String) :
    s.current_round_winner_id = none ∧
    (get_current_round_for_game_state s names).winner = SVal.null := by
  have hnone : s.current_round_winner_id = none := by
    induction hs with
    | start pns opts => rfl
    | step t t2 pid mv ack ht heq ih =>
        rw [play_move_ok_winner_id t t2 pid mv ack heq]
        exact ih
  refine ⟨hnone, ?_⟩
  unfold get_current_round_for_game_state
  rw [hnone]

/-- C10 witness: the invariant at the freshly started game. -/
theorem claim_C10_witness :
    g0.current_round_winner_id = none ∧
    (get_current_round_for_game_state g0 ["alice", "bob"]).winner = SVal.null :=
  claim_C10_round_winner_never_set g0 (Reachable.start ["alice", "bob"] [])
    ["alice", "bob"]
